import Mathlib

/-!
# OTP-8900: customer-reference intake Suitelet

Shallow embedding of `jj_sl_otp_8900.js` (a SuiteScript 2.1 Suitelet) and of the
platform modules it calls (`N/search`, `N/record`, `N/email`, `N/log`,
`N/ui/serverWidget`).

The platform is a value of type `World`: the Customer and Employee directories,
the table of `customrecord_jj_customer_reference` records, the outbox of sent
e-mails, the execution log and the pages written to the response.  Script
functions are computations `M α = World → Except String α × World`: a JavaScript
`throw` is `Except.error`, and the world reached so far is kept when an error
is raised, as effects of a JavaScript program are.

Two fields of `World` are bookkeeping that the script cannot observe:
`calls` lists every platform call made, and `raised` every error message
thrown.  `faults` says which platform calls throw.
-/

namespace OTP8900

/-! ## Platform data -/

/-- Record types the script names (`search.Type.CUSTOMER`, `search.Type.EMPLOYEE`
and the custom record type). -/
inductive RecType
  | CUSTOMER
  | EMPLOYEE
  | customrecord_jj_customer_reference
  deriving DecidableEq, Repr

/-- Members of `serverWidget.FieldType` that the script uses. -/
inductive FieldType
  | TEXT
  | EMAIL
  | INLINEHTML
  deriving DecidableEq, Repr

/-- Field and column ids that occur in the script.  Field ids are not
case-sensitive on the platform, so `"internalId"` (line 157) and `"internalid"`
(line 269) are the same column. -/
inductive FieldId
  | email
  | entityid
  | internalid
  | salesrep
  | custrecord_jj_cust_ref_name
  | custrecord_jj_cust_ref_email
  | custrecord_jj_cust_reference
  | custrecord_jj_cust_ref_subject
  | custrecord_jj_cust_ref_message
  deriving DecidableEq, Repr

/-- A Customer entity: the script reads its e-mail and its sales rep.  The
sales rep is optional on the platform (`sendRepEmail` is documented as
"the customer's sales rep, if any"). -/
structure Customer where
  internalid : Nat
  email : String
  salesrep : Option Nat
  deriving DecidableEq, Repr

/-- An Employee entity: the script reads its e-mail. -/
structure Employee where
  internalid : Nat
  email : String
  deriving DecidableEq, Repr

/-- A persisted `customrecord_jj_customer_reference` record. -/
structure CustomerReference where
  internalid : Nat
  custrecord_jj_cust_ref_name : String
  custrecord_jj_cust_ref_email : String
  custrecord_jj_cust_reference : Option Nat
  custrecord_jj_cust_ref_subject : String
  custrecord_jj_cust_ref_message : String
  deriving DecidableEq, Repr

/-- A recipient of `email.send`: an entity id (`-5` is the administrator) or an
e-mail address. -/
inductive Recipient
  | entity (id : Int)
  | address (addr : String)
  deriving DecidableEq, Repr

/-- The options object of one `email.send` call. -/
structure Message where
  author : Int
  recipients : List Recipient
  subject : String
  body : String
  deriving DecidableEq, Repr

/-- Severity of an execution-log entry. -/
inductive LogLevel
  | debug
  | audit
  | error
  | emergency
  deriving DecidableEq, Repr

/-- One execution-log entry. -/
structure LogEntry where
  level : LogLevel
  title : String
  details : String
  deriving DecidableEq, Repr

/-- A field of a `serverWidget` form. -/
structure Field where
  id : String
  type : FieldType
  label : String
  defaultValue : Option String
  deriving DecidableEq, Repr

/-- A `serverWidget` form: title, fields in the order added, submit buttons. -/
structure Form where
  title : String
  fields : List Field
  submitButtons : List String
  deriving DecidableEq, Repr

/-- A platform call, with the arguments that identify it. -/
inductive Op
  | createForm (title : String)
  | addField (id : String)
  | addSubmitButton
  | writePage
  | searchCreate (type : RecType)
  | run (type : RecType)
  | each (type : RecType)
  | lookupFields (type : RecType) (id : Option Nat)
  | recordCreate (type : RecType)
  | setValue (fieldId : FieldId)
  | save
  | emailSend (recipients : List (Option Recipient))
  deriving DecidableEq, Repr

/-- Calls of `serverWidget` forms and of the response: the calls that touch
neither records, searches nor e-mail. -/
def Op.isWidget : Op → Bool
  | Op.createForm _ => true
  | Op.addField _ => true
  | Op.addSubmitButton => true
  | Op.writePage => true
  | _ => false

/-- The platform state. -/
structure World where
  customers : List Customer
  employees : List Employee
  references : List CustomerReference
  outbox : List Message
  logs : List LogEntry
  response : List Form
  calls : List Op
  raised : List String
  faults : Op → Bool

/-- Script computations: a result or a thrown error message, and the world
reached. -/
def M (α : Type) : Type := World → Except String α × World

/-- Sequencing: an error stops the rest, keeping the world reached. -/
def M.bind {α β : Type} (m : M α) (f : α → M β) : M β := fun w =>
  match m w with
  | (Except.ok a, w1) => f a w1
  | (Except.error e, w1) => (Except.error e, w1)

instance : Monad M where
  pure a := fun w => (Except.ok a, w)
  bind := M.bind

/-- JavaScript `throw`: the message is noted in `raised`. -/
def raise {α : Type} (msg : String) : M α := fun w =>
  (Except.error msg, { w with raised := w.raised ++ [msg] })

/-- JavaScript `try { body } catch (e) { handler(e.message) }`. -/
def tryCatch {α : Type} (body : M α) (handler : String → M α) : M α := fun w =>
  match body w with
  | (Except.ok a, w1) => (Except.ok a, w1)
  | (Except.error e, w1) => handler e w1

/-- Entry of every platform call: the call is noted, and it throws when the
platform fails it. -/
def platformCall (op : Op) : M Unit := fun w =>
  if w.faults op then raise "UNEXPECTED_ERROR" { w with calls := w.calls ++ [op] }
  else (Except.ok (), { w with calls := w.calls ++ [op] })

/-! ## N/log -/

/-- Platform `log.error`: appends an entry of error severity; it does not
throw. -/
def log.error (title details : String) : M Unit := fun w =>
  (Except.ok (), { w with logs := w.logs ++ [⟨LogLevel.error, title, details⟩] })

/-! ## N/ui/serverWidget and the response -/

/-- Platform `serverWidget.createForm`. -/
def serverWidget.createForm (title : String) : M Form := do
  platformCall (Op.createForm title)
  pure ⟨title, [], []⟩

/-- Platform `form.addField`: the field is appended to the form. -/
def Form.addField (form : Form) (id : String) (type : FieldType) (label : String) : M Form := do
  platformCall (Op.addField id)
  pure { form with fields := form.fields ++ [⟨id, type, label, none⟩] }

/-- Assignment to `defaultValue` of the field with the given id. -/
def Form.setDefaultValue (form : Form) (id : String) (value : String) : Form :=
  { form with fields := form.fields.map fun f =>
      if f.id = id then { f with defaultValue := some value } else f }

/-- Platform `form.addSubmitButton`. -/
def Form.addSubmitButton (form : Form) (label : String) : M Form := do
  platformCall Op.addSubmitButton
  pure { form with submitButtons := form.submitButtons ++ [label] }

/-- Platform `response.writePage`. -/
def response.writePage (pageObject : Form) : M Unit := do
  platformCall Op.writePage
  fun w => (Except.ok (), { w with response := w.response ++ [pageObject] })

/-! ## N/search -/

/-- A filter `[field, "is", value]`; the filters of a search are joined by AND. -/
structure Filter where
  field : FieldId
  value : String
  deriving DecidableEq, Repr

/-- A search object: record type and filters. -/
structure Search where
  type : RecType
  filters : List Filter
  deriving DecidableEq, Repr

/-- A search result row; the script reads only its internal id. -/
structure Result where
  internalid : Nat
  deriving DecidableEq, Repr

/-- Platform `result.getValue`. -/
def Result.getValue (result : Result) (name : FieldId) : Option Nat :=
  if name = FieldId.internalid then some result.internalid else none

/-- A result set: the rows, in the order the platform yields them. -/
structure ResultSet where
  type : RecType
  rows : List Result
  deriving DecidableEq, Repr

/-- Text fields of a Customer that a filter can test. -/
def Customer.getText (c : Customer) : FieldId → Option String
  | FieldId.email => some c.email
  | _ => none

/-- Text fields of an Employee that a filter can test. -/
def Employee.getText (e : Employee) : FieldId → Option String
  | FieldId.email => some e.email
  | _ => none

/-- Text fields of a customer-reference record that a filter can test. -/
def CustomerReference.getText (r : CustomerReference) : FieldId → Option String
  | FieldId.custrecord_jj_cust_ref_name => some r.custrecord_jj_cust_ref_name
  | FieldId.custrecord_jj_cust_ref_email => some r.custrecord_jj_cust_ref_email
  | FieldId.custrecord_jj_cust_ref_subject => some r.custrecord_jj_cust_ref_subject
  | FieldId.custrecord_jj_cust_ref_message => some r.custrecord_jj_cust_ref_message
  | _ => none

/-- Whether a row passes every filter: operator `is` is equality of the field's
text with the filter value. -/
def passes (getText : FieldId → Option String) (filters : List Filter) : Bool :=
  filters.all fun f => getText f.field == some f.value

/-- Rows a search yields: the rows of its record type passing the filters, in
table order, which stands for the order in which the platform yields them. -/
def Search.rows (s : Search) (customers : List Customer) (employees : List Employee)
    (references : List CustomerReference) : List Result :=
  match s.type with
  | RecType.CUSTOMER =>
      (customers.filter fun c => passes c.getText s.filters).map fun c => ⟨c.internalid⟩
  | RecType.EMPLOYEE =>
      (employees.filter fun e => passes e.getText s.filters).map fun e => ⟨e.internalid⟩
  | RecType.customrecord_jj_customer_reference =>
      (references.filter fun r => passes r.getText s.filters).map fun r => ⟨r.internalid⟩

/-- Platform `search.create`. -/
def search.create (type : RecType) (filters : List Filter) : M Search := do
  platformCall (Op.searchCreate type)
  pure ⟨type, filters⟩

/-- Platform `Search.run`. -/
def Search.run (s : Search) : M ResultSet := do
  platformCall (Op.run s.type)
  fun w => (Except.ok ⟨s.type, s.rows w.customers w.employees w.references⟩, w)

/-- Iteration of `ResultSet.each`: the callback is applied to the rows in order
and returns, with the updated captured variables, whether to go on; iteration
stops at the first row for which it does not return `true`. -/
def eachLoop {σ : Type} (callback : Result → σ → σ × Bool) : List Result → σ → σ
  | [], acc => acc
  | r :: rest, acc =>
      match callback r acc with
      | (acc1, true) => eachLoop callback rest acc1
      | (acc1, false) => acc1

/-- Platform `ResultSet.each`.  `init` is the value of the variables the
callback captures, the result their value afterwards. -/
def ResultSet.each {σ : Type} (rs : ResultSet) (callback : Result → σ → σ × Bool) (init : σ) :
    M σ := do
  platformCall (Op.each rs.type)
  pure (eachLoop callback rs.rows init)

/-- An entry of a select field returned by `lookupFields`. -/
structure SelectOption where
  value : Nat
  deriving DecidableEq, Repr

/-- Object returned by `search.lookupFields`: a property per requested column,
`none` for a column that was not requested. -/
structure LookupResult where
  salesrep : Option (List SelectOption)
  email : Option String
  deriving DecidableEq, Repr

/-- JavaScript truthiness of the object returned by `lookupFields`: an object
is truthy. -/
def LookupResult.truthy (_ : LookupResult) : Bool := true

/-- Value of the `salesrep` select field of the customer with the given id. -/
def lookupSalesrep (customers : List Customer) (id : Nat) : Option (List SelectOption) :=
  match customers.find? fun c => c.internalid == id with
  | some c =>
      match c.salesrep with
      | some r => some [⟨r⟩]
      | none => some []
  | none => none

/-- Value of the `email` field of the employee with the given id. -/
def lookupEmail (employees : List Employee) (id : Nat) : Option String :=
  match employees.find? fun e => e.internalid == id with
  | some e => some e.email
  | none => none

/-- What `search.lookupFields` returns or throws: it throws when `id` is
undefined or names no record of the type. -/
def lookupValue (customers : List Customer) (employees : List Employee) (type : RecType)
    (id : Option Nat) (columns : List FieldId) : Except String LookupResult :=
  match id with
  | none => Except.error "SSS_MISSING_REQD_ARGUMENT"
  | some i =>
      match type with
      | RecType.CUSTOMER =>
          match lookupSalesrep customers i with
          | some opts => Except.ok ⟨if FieldId.salesrep ∈ columns then some opts else none, none⟩
          | none => Except.error "RCRD_DSNT_EXIST"
      | RecType.EMPLOYEE =>
          match lookupEmail employees i with
          | some addr => Except.ok ⟨none, if FieldId.email ∈ columns then some addr else none⟩
          | none => Except.error "RCRD_DSNT_EXIST"
      | RecType.customrecord_jj_customer_reference => Except.error "RCRD_DSNT_EXIST"

/-- Platform `search.lookupFields`. -/
def search.lookupFields (type : RecType) (id : Option Nat) (columns : List FieldId) :
    M LookupResult := do
  platformCall (Op.lookupFields type id)
  fun w =>
    match lookupValue w.customers w.employees type id columns with
    | Except.ok r => (Except.ok r, w)
    | Except.error msg => raise msg w

/-- JavaScript `saleRep.salesrep[0]`: the first entry, if there is one. -/
def LookupResult.salesrep0 (saleRep : LookupResult) : Option SelectOption :=
  match saleRep.salesrep with
  | some (o :: _) => some o
  | _ => none

/-- JavaScript `x.value` of a possibly undefined `x`: a TypeError when `x` is
undefined. -/
def valueOf (x : Option SelectOption) : M Nat :=
  match x with
  | some o => pure o.value
  | none => raise "Cannot read properties of undefined (reading 'value')"

/-- JavaScript `s.run()` of a possibly undefined search `s`: a TypeError when
`s` is undefined. -/
def runOf (s : Option Search) : M ResultSet :=
  match s with
  | some s => s.run
  | none => raise "Cannot read properties of undefined (reading 'run')"

/-! ## N/record -/

/-- A value passed to `setValue`: a string, or a customer id that may be
undefined. -/
inductive Value
  | str (s : String)
  | ref (id : Option Nat)
  deriving DecidableEq, Repr

/-- A customer-reference record being edited, not yet saved. -/
structure Record where
  custrecord_jj_cust_ref_name : String
  custrecord_jj_cust_ref_email : String
  custrecord_jj_cust_reference : Option Nat
  custrecord_jj_cust_ref_subject : String
  custrecord_jj_cust_ref_message : String
  deriving DecidableEq, Repr

/-- Platform `record.create`: a new record with every field empty. -/
def record.create (type : RecType) : M Record := do
  platformCall (Op.recordCreate type)
  pure ⟨"", "", none, "", ""⟩

/-- Platform `record.setValue`. -/
def Record.setValue (rec : Record) (fieldId : FieldId) (value : Value) : M Record := do
  platformCall (Op.setValue fieldId)
  pure (match fieldId, value with
    | FieldId.custrecord_jj_cust_ref_name, Value.str v =>
        { rec with custrecord_jj_cust_ref_name := v }
    | FieldId.custrecord_jj_cust_ref_email, Value.str v =>
        { rec with custrecord_jj_cust_ref_email := v }
    | FieldId.custrecord_jj_cust_reference, Value.ref v =>
        { rec with custrecord_jj_cust_reference := v }
    | FieldId.custrecord_jj_cust_ref_subject, Value.str v =>
        { rec with custrecord_jj_cust_ref_subject := v }
    | FieldId.custrecord_jj_cust_ref_message, Value.str v =>
        { rec with custrecord_jj_cust_ref_message := v }
    | _, _ => rec)

/-- Internal id the platform assigns to the next saved record: positive and
larger than every id in the table. -/
def nextId (rs : List CustomerReference) : Nat :=
  (rs.map fun r => r.internalid).foldl max 0 + 1

/-- Platform `record.save`: the record is appended to the table under a new
internal id, which is returned. -/
def Record.save (rec : Record) : M Nat := do
  platformCall Op.save
  fun w =>
    (Except.ok (nextId w.references),
      { w with references := w.references ++
          [⟨nextId w.references, rec.custrecord_jj_cust_ref_name,
            rec.custrecord_jj_cust_ref_email, rec.custrecord_jj_cust_reference,
            rec.custrecord_jj_cust_ref_subject, rec.custrecord_jj_cust_ref_message⟩] })

/-! ## N/email -/

/-- Platform `email.send`.  A recipient may be an undefined value, in which
case the platform throws. -/
def email.send (author : Int) (recipients : List (Option Recipient)) (subject body : String) :
    M Unit := do
  platformCall (Op.emailSend recipients)
  if recipients.all Option.isSome then
    fun w => (Except.ok (), { w with outbox := w.outbox ++
      [⟨author, recipients.filterMap id, subject, body⟩] })
  else
    raise "SSS_MISSING_REQD_ARGUMENT"

/-! ## The script -/

/-- Form parameters of a request. -/
structure Parameters where
  custpage_cust_ref_name : String
  custpage_cust_ref_email : String
  custpage_cust_ref_subject : String
  custpage_cust_ref_message : String
  deriving DecidableEq, Repr

/-- The incoming request. -/
structure Request where
  method : String
  parameters : Parameters
  deriving DecidableEq, Repr

/-- The script context; the response is the `response` field of the world. -/
structure ScriptContext where
  request : Request
  deriving DecidableEq, Repr

/-- Source `formCreation` (lines 75-115). -/
def formCreation (_scriptContext : ScriptContext) : M Unit :=
  tryCatch (do
    let form ← serverWidget.createForm "Customer Form"
    let form ← form.addField "custpage_cust_ref_name" FieldType.TEXT "Customer Name"
    let form ← form.addField "custpage_cust_ref_email" FieldType.EMAIL "Customer Email"
    let form ← form.addField "custpage_cust_ref_subject" FieldType.TEXT "Subject"
    let form ← form.addField "custpage_cust_ref_message" FieldType.TEXT "Message"
    let form ← form.addSubmitButton "Submit"
    response.writePage form)
  (fun e => log.error "Error caught" e)

/-- Source `duplicateSearch` (lines 248-276).  The callback of `each` assigns
`duplicate` and returns no value, which is not `true`.  The function returns
`undefined` (`none`) when nothing was assigned and when an error was caught. -/
def duplicateSearch (name email : String) : M (Option Nat) :=
  tryCatch (do
    let searchForDuplicate ← search.create RecType.customrecord_jj_customer_reference
      [⟨FieldId.custrecord_jj_cust_ref_name, name⟩, ⟨FieldId.custrecord_jj_cust_ref_email, email⟩]
    let rs ← searchForDuplicate.run
    let duplicate ← rs.each (fun result _ => (result.getValue FieldId.internalid, false)) none
    pure duplicate)
  (fun e => do
    log.error "Error caught" e
    pure none)

/-- Source `emailSearch` (lines 284-301): the search object, or `undefined`
(`none`) when an error was caught. -/
def emailSearch (email : String) : M (Option Search) :=
  tryCatch (do
    let customerSearch ← search.create RecType.CUSTOMER [⟨FieldId.email, email⟩]
    pure (some customerSearch))
  (fun e => do
    log.error "Error caught" e
    pure none)

/-- Source `sendAdminEmail` (lines 308-319). -/
def sendAdminEmail : M Unit :=
  tryCatch
    (email.send (-5) [some (Recipient.entity (-5))] "Custom Record Creation"
      "A custom customer record was created")
    (fun e => log.error "Error caught" e)

/-- Source `sendRepEmail` (lines 326-343). -/
def sendRepEmail (rep : Nat) : M Unit :=
  tryCatch (do
    let salesRepEmail ← search.lookupFields RecType.EMPLOYEE (some rep) [FieldId.email]
    email.send (-5) [salesRepEmail.email.map Recipient.address] "Custom record creation"
      "A custom customer record was created")
  (fun e => log.error "Error caught:" e)

/-- Inline HTML of the duplicate notice (template literal of lines 148-150). -/
def duplicateHtml : String :=
  "\n            \n            <p> A customer with the same details exists ! </p>"

/-- Inline HTML of the confirmation (template literal of lines 216-222). -/
def confirmationHtml (custName custEmail custSubject custMessage : String) : String :=
  "\n            <h1> Custom Record Created </h1>\n            <p> Customer Name : " ++ custName
    ++ " </p>\n            <p> Customer Email : " ++ custEmail
    ++ " </p>\n            <p> Subject : " ++ custSubject
    ++ " </p>\n            <p> Message : " ++ custMessage ++ " </p>\n    "

/-- Source `recordCreation` (lines 123-239). -/
def recordCreation (scriptContext : ScriptContext) : M Unit :=
  tryCatch (do
    let custName := scriptContext.request.parameters.custpage_cust_ref_name
    let custEmail := scriptContext.request.parameters.custpage_cust_ref_email
    let custSubject := scriptContext.request.parameters.custpage_cust_ref_subject
    let custMessage := scriptContext.request.parameters.custpage_cust_ref_message
    let customerSearch1 ← emailSearch custEmail
    let doesExist ← duplicateSearch custName custEmail
    if doesExist.isSome then
      let form ← serverWidget.createForm "Custom Record Creation !"
      let form ← form.addField "custpage_existing" FieldType.INLINEHTML "Text"
      let form := form.setDefaultValue "custpage_existing" duplicateHtml
      response.writePage form
    else
      let rs ← runOf customerSearch1
      let customerId ← rs.each (fun result _ => (result.getValue FieldId.internalid, false)) none
      let saleRep ← search.lookupFields RecType.CUSTOMER customerId [FieldId.salesrep]
      let salesRepId ← valueOf saleRep.salesrep0
      let customerRecord ← record.create RecType.customrecord_jj_customer_reference
      let customerRecord ←
        customerRecord.setValue FieldId.custrecord_jj_cust_ref_name (Value.str custName)
      let customerRecord ←
        customerRecord.setValue FieldId.custrecord_jj_cust_ref_email (Value.str custEmail)
      let customerRecord ←
        customerRecord.setValue FieldId.custrecord_jj_cust_reference (Value.ref customerId)
      let customerRecord ←
        customerRecord.setValue FieldId.custrecord_jj_cust_ref_subject (Value.str custSubject)
      let customerRecord ←
        customerRecord.setValue FieldId.custrecord_jj_cust_ref_message (Value.str custMessage)
      let recId ← customerRecord.save
      let form ← serverWidget.createForm "Custom Record Creation !"
      let form ← form.addField "custpage_result" FieldType.INLINEHTML "Text"
      let form := form.setDefaultValue "custpage_result"
        (confirmationHtml custName custEmail custSubject custMessage)
      response.writePage form
      if recId ≠ 0 then
        sendAdminEmail
      if saleRep.truthy then
        sendRepEmail salesRepId)
  (fun e => log.error "Error caught" e)

/-- Source `onRequest` (lines 56-67). -/
def onRequest (scriptContext : ScriptContext) : M Unit :=
  tryCatch (do
    if scriptContext.request.method = "GET" then
      formCreation scriptContext
    if scriptContext.request.method = "POST" then
      recordCreation scriptContext)
  (fun e => log.error "Error caught" e)

/-! ## Weakest preconditions -/

/-- `wp m Q E w`: running `m` from `w` ends in a world satisfying `Q` with the
value returned, or `E` with the error thrown. -/
def wp {α : Type} (m : M α) (Q : α → World → Prop) (E : String → World → Prop) (w : World) :
    Prop :=
  match m w with
  | (Except.ok a, w1) => Q a w1
  | (Except.error e, w1) => E e w1

/-- No two records of the store share both name and e-mail. -/
def UniquePairs (rs : List CustomerReference) : Prop :=
  (rs.map fun r => (r.custrecord_jj_cust_ref_name, r.custrecord_jj_cust_ref_email)).Nodup

/-- No platform call fails. -/
def NoFaults (w : World) : Prop := ∀ op, w.faults op = false

/-! ## Example platform states -/

/-- A store holding Jane Doe's record. -/
def janeStored : World :=
  { customers := [⟨7, "jane@x.com", some 3⟩], employees := [⟨3, "rep@x.com"⟩],
    references := [⟨1, "Jane Doe", "jane@x.com", some 7, "Help", "Need info"⟩],
    outbox := [], logs := [], response := [], calls := [], raised := [],
    faults := fun _ => false }

/-- The store `janeStored` on a platform where running the search for
customer-reference records throws. -/
def janeStoredRunFails : World :=
  { customers := [⟨7, "jane@x.com", some 3⟩], employees := [⟨3, "rep@x.com"⟩],
    references := [⟨1, "Jane Doe", "jane@x.com", some 7, "Help", "Need info"⟩],
    outbox := [], logs := [], response := [], calls := [], raised := [],
    faults := fun op => decide (op = Op.run RecType.customrecord_jj_customer_reference) }

/-- Jane Doe's submission. -/
def janePost : ScriptContext :=
  ⟨⟨"POST", ⟨"Jane Doe", "jane@x.com", "Help", "Need info"⟩⟩⟩

/-- A store without records whose only customer has a sales rep. -/
def janeCustomer : World :=
  { customers := [⟨7, "jane@x.com", some 3⟩], employees := [⟨3, "rep@x.com"⟩],
    references := [], outbox := [], logs := [], response := [], calls := [], raised := [],
    faults := fun _ => false }

/-- A store without records whose only customer has no sales rep. -/
def janeNoRep : World :=
  { customers := [⟨7, "jane@x.com", none⟩], employees := [⟨3, "rep@x.com"⟩],
    references := [], outbox := [], logs := [], response := [], calls := [], raised := [],
    faults := fun _ => false }

/-- A store with no customer and no record. -/
def janeUnknown : World :=
  { customers := [], employees := [⟨3, "rep@x.com"⟩],
    references := [], outbox := [], logs := [], response := [], calls := [], raised := [],
    faults := fun _ => false }

/-- A GET request. -/
def getRequest : ScriptContext := ⟨⟨"GET", ⟨"", "", "", ""⟩⟩⟩

/-- A store without records in which two customers share Jane Doe's e-mail. -/
def janeTwice : World :=
  { customers := [⟨7, "jane@x.com", some 3⟩, ⟨8, "jane@x.com", some 4⟩],
    employees := [⟨3, "rep@x.com"⟩, ⟨4, "other@x.com"⟩],
    references := [], outbox := [], logs := [], response := [], calls := [], raised := [],
    faults := fun _ => false }

/-- A store with two records of the same name and e-mail. -/
def twoMatches : World :=
  { customers := [], employees := [],
    references := [⟨1, "A", "a@x.com", none, "s1", "m1"⟩, ⟨2, "A", "a@x.com", none, "s2", "m2"⟩],
    outbox := [], logs := [], response := [], calls := [], raised := [],
    faults := fun _ => false }

/-! ## Weakest-precondition rules -/

theorem of_wp {α : Type} {m : M α} {w : World} (P : Except String α × World → Prop)
    (h : wp m (fun a w1 => P (Except.ok a, w1)) (fun e w1 => P (Except.error e, w1)) w) :
    P (m w) := by
  unfold wp at h
  rcases hm : m w with ⟨r, w1⟩
  rw [hm] at h
  cases r <;> simpa using h

theorem wp_pure {α : Type} (a : α) (Q : α → World → Prop) (E : String → World → Prop) (w : World) :
    wp (pure a) Q E w ↔ Q a w := Iff.rfl

theorem wp_bind {α β : Type} (m : M α) (f : α → M β) (Q : β → World → Prop) (E : String → World → Prop)
    (w : World) : wp (m >>= f) Q E w ↔ wp m (fun a w1 => wp (f a) Q E w1) E w := by
  show wp (M.bind m f) Q E w ↔ _
  unfold wp M.bind
  rcases m w with ⟨r, w1⟩
  cases r <;> simp

theorem wp_tryCatch {α : Type} (b : M α) (h : String → M α) (Q : α → World → Prop)
    (E : String → World → Prop) (w : World) :
    wp (tryCatch b h) Q E w ↔ wp b Q (fun e w1 => wp (h e) Q E w1) w := by
  unfold wp tryCatch
  rcases b w with ⟨r, w1⟩
  cases r <;> simp

theorem wp_raise {α : Type} (msg : String) (Q : α → World → Prop) (E : String → World → Prop) (w : World) :
    wp (raise msg) Q E w ↔ E msg { w with raised := w.raised ++ [msg] } := Iff.rfl

theorem wp_ite {α : Type} (c : Prop) [Decidable c] (a b : M α) (Q : α → World → Prop)
    (E : String → World → Prop) (w : World) :
    wp (if c then a else b) Q E w ↔ (c → wp a Q E w) ∧ (¬ c → wp b Q E w) := by
  split <;> simp_all

theorem wp_platformCall (op : Op) (Q : Unit → World → Prop) (E : String → World → Prop)
    (w : World) :
    wp (platformCall op) Q E w ↔
      (w.faults op = true → E "UNEXPECTED_ERROR"
        { w with calls := w.calls ++ [op], raised := w.raised ++ ["UNEXPECTED_ERROR"] }) ∧
      (w.faults op = false → Q () { w with calls := w.calls ++ [op] }) := by
  unfold wp platformCall raise
  cases h : w.faults op <;> simp

theorem wp_logError (t d : String) (Q : Unit → World → Prop) (E : String → World → Prop)
    (w : World) :
    wp (log.error t d) Q E w ↔ Q () { w with logs := w.logs ++ [⟨LogLevel.error, t, d⟩] } :=
  Iff.rfl

theorem wp_createForm (title : String) (Q : Form → World → Prop) (E : String → World → Prop)
    (w : World) :
    wp (serverWidget.createForm title) Q E w ↔
      wp (platformCall (Op.createForm title)) (fun _ w1 => Q ⟨title, [], []⟩ w1) E w := by
  unfold serverWidget.createForm; rw [wp_bind]; rfl

theorem wp_addField (form : Form) (id : String) (type : FieldType) (label : String)
    (Q : Form → World → Prop) (E : String → World → Prop) (w : World) :
    wp (form.addField id type label) Q E w ↔
      wp (platformCall (Op.addField id))
        (fun _ w1 => Q { form with fields := form.fields ++ [⟨id, type, label, none⟩] } w1) E w := by
  unfold Form.addField; rw [wp_bind]; rfl

theorem wp_addSubmitButton (form : Form) (label : String)
    (Q : Form → World → Prop) (E : String → World → Prop) (w : World) :
    wp (form.addSubmitButton label) Q E w ↔
      wp (platformCall Op.addSubmitButton)
        (fun _ w1 => Q { form with submitButtons := form.submitButtons ++ [label] } w1) E w := by
  unfold Form.addSubmitButton; rw [wp_bind]; rfl

theorem wp_writePage (form : Form) (Q : Unit → World → Prop) (E : String → World → Prop)
    (w : World) :
    wp (response.writePage form) Q E w ↔
      wp (platformCall Op.writePage)
        (fun _ w1 => Q () { w1 with response := w1.response ++ [form] }) E w := by
  unfold response.writePage; rw [wp_bind]; rfl

theorem wp_searchCreate (type : RecType) (filters : List Filter)
    (Q : Search → World → Prop) (E : String → World → Prop) (w : World) :
    wp (search.create type filters) Q E w ↔
      wp (platformCall (Op.searchCreate type)) (fun _ w1 => Q ⟨type, filters⟩ w1) E w := by
  unfold search.create; rw [wp_bind]; rfl

theorem wp_run (s : Search) (Q : ResultSet → World → Prop) (E : String → World → Prop)
    (w : World) :
    wp s.run Q E w ↔
      wp (platformCall (Op.run s.type))
        (fun _ w1 => Q ⟨s.type, s.rows w1.customers w1.employees w1.references⟩ w1) E w := by
  unfold Search.run; rw [wp_bind]; rfl

theorem wp_each {σ : Type} (rs : ResultSet) (callback : Result → σ → σ × Bool) (init : σ)
    (Q : σ → World → Prop) (E : String → World → Prop) (w : World) :
    wp (rs.each callback init) Q E w ↔
      wp (platformCall (Op.each rs.type)) (fun _ w1 => Q (eachLoop callback rs.rows init) w1) E w := by
  unfold ResultSet.each; rw [wp_bind]; rfl

theorem wp_lookupFields (type : RecType) (id : Option Nat) (columns : List FieldId)
    (Q : LookupResult → World → Prop) (E : String → World → Prop) (w : World) :
    wp (search.lookupFields type id columns) Q E w ↔
      wp (platformCall (Op.lookupFields type id))
        (fun _ w1 =>
          (∀ r, lookupValue w1.customers w1.employees type id columns = Except.ok r → Q r w1) ∧
          (∀ msg, lookupValue w1.customers w1.employees type id columns = Except.error msg →
            E msg { w1 with raised := w1.raised ++ [msg] })) E w := by
  unfold search.lookupFields; rw [wp_bind]
  unfold wp
  rcases platformCall (Op.lookupFields type id) w with ⟨r, w1⟩
  cases r with
  | error e => simp
  | ok u =>
    simp only
    cases h : lookupValue w1.customers w1.employees type id columns <;> simp [raise]

theorem wp_valueOf (x : Option SelectOption) (Q : Nat → World → Prop)
    (E : String → World → Prop) (w : World) :
    wp (valueOf x) Q E w ↔
      (∀ o, x = some o → Q o.value w) ∧
      (x = none → E "Cannot read properties of undefined (reading 'value')"
        { w with raised := w.raised ++
            ["Cannot read properties of undefined (reading 'value')"] }) := by
  cases x <;> simp [valueOf, wp_pure, wp_raise]

theorem wp_runOf_some (s : Search) (Q : ResultSet → World → Prop) (E : String → World → Prop)
    (w : World) : wp (runOf (some s)) Q E w ↔ wp s.run Q E w := Iff.rfl

theorem wp_runOf_none (Q : ResultSet → World → Prop) (E : String → World → Prop)
    (w : World) :
    wp (runOf none) Q E w ↔ E "Cannot read properties of undefined (reading 'run')"
      { w with raised := w.raised ++
          ["Cannot read properties of undefined (reading 'run')"] } :=
  Iff.rfl

theorem wp_recordCreate (type : RecType) (Q : Record → World → Prop)
    (E : String → World → Prop) (w : World) :
    wp (record.create type) Q E w ↔
      wp (platformCall (Op.recordCreate type)) (fun _ w1 => Q ⟨"", "", none, "", ""⟩ w1) E w := by
  unfold record.create; rw [wp_bind]; rfl

theorem wp_setValue (rec : Record) (fieldId : FieldId) (value : Value)
    (Q : Record → World → Prop) (E : String → World → Prop) (w : World) :
    wp (rec.setValue fieldId value) Q E w ↔
      wp (platformCall (Op.setValue fieldId))
        (fun _ w1 => Q (match fieldId, value with
          | FieldId.custrecord_jj_cust_ref_name, Value.str v =>
              { rec with custrecord_jj_cust_ref_name := v }
          | FieldId.custrecord_jj_cust_ref_email, Value.str v =>
              { rec with custrecord_jj_cust_ref_email := v }
          | FieldId.custrecord_jj_cust_reference, Value.ref v =>
              { rec with custrecord_jj_cust_reference := v }
          | FieldId.custrecord_jj_cust_ref_subject, Value.str v =>
              { rec with custrecord_jj_cust_ref_subject := v }
          | FieldId.custrecord_jj_cust_ref_message, Value.str v =>
              { rec with custrecord_jj_cust_ref_message := v }
          | _, _ => rec) w1) E w := by
  unfold Record.setValue; rw [wp_bind]; rfl

theorem wp_save (rec : Record) (Q : Nat → World → Prop) (E : String → World → Prop)
    (w : World) :
    wp rec.save Q E w ↔
      wp (platformCall Op.save)
        (fun _ w1 => Q (nextId w1.references)
          { w1 with references := w1.references ++
              [⟨nextId w1.references, rec.custrecord_jj_cust_ref_name,
                rec.custrecord_jj_cust_ref_email, rec.custrecord_jj_cust_reference,
                rec.custrecord_jj_cust_ref_subject, rec.custrecord_jj_cust_ref_message⟩] }) E w := by
  unfold Record.save; rw [wp_bind]; rfl

theorem wp_emailSend (author : Int) (recipients : List (Option Recipient))
    (subject body : String) (Q : Unit → World → Prop) (E : String → World → Prop) (w : World) :
    wp (email.send author recipients subject body) Q E w ↔
      wp (platformCall (Op.emailSend recipients))
        (fun _ w1 =>
          (recipients.all Option.isSome = true →
            Q () { w1 with outbox := w1.outbox ++
              [⟨author, recipients.filterMap id, subject, body⟩] }) ∧
          (¬ recipients.all Option.isSome = true →
            E "SSS_MISSING_REQD_ARGUMENT"
              { w1 with raised := w1.raised ++ ["SSS_MISSING_REQD_ARGUMENT"] })) E w := by
  unfold email.send; rw [wp_bind]
  simp only [wp_ite]
  rfl

theorem nextId_ne_zero (rs : List CustomerReference) : nextId rs ≠ 0 := by
  simp [nextId]


/-! ## Searches of the script -/

theorem eachLoop_first (rows : List Result) :
    eachLoop (fun result (_ : Option Nat) => (result.getValue FieldId.internalid, false)) rows none
      = rows.head?.map fun r => r.internalid := by
  cases rows <;> simp [eachLoop, Result.getValue]

theorem duplicate_each (name email : String) (cs : List Customer) (es : List Employee)
    (refs : List CustomerReference) :
    eachLoop (fun result (_ : Option Nat) => (result.getValue FieldId.internalid, false))
      (Search.rows ⟨RecType.customrecord_jj_customer_reference,
        [⟨FieldId.custrecord_jj_cust_ref_name, name⟩,
         ⟨FieldId.custrecord_jj_cust_ref_email, email⟩]⟩ cs es refs) none
      = (refs.filter fun r => r.custrecord_jj_cust_ref_name = name ∧
          r.custrecord_jj_cust_ref_email = email).head?.map fun r => r.internalid := by
  rw [eachLoop_first]
  simp [Search.rows, passes, CustomerReference.getText, List.head?_map, Bool.decide_and]
  rfl

theorem customer_each (email : String) (cs : List Customer) (es : List Employee)
    (refs : List CustomerReference) :
    eachLoop (fun result (_ : Option Nat) => (result.getValue FieldId.internalid, false))
      (Search.rows ⟨RecType.CUSTOMER, [⟨FieldId.email, email⟩]⟩ cs es refs) none
      = (cs.filter fun c => c.email = email).head?.map fun c => c.internalid := by
  rw [eachLoop_first]
  simp [Search.rows, passes, Customer.getText, List.head?_map]
  rfl

theorem head?_filter_isSome {α : Type} (p : α → Bool) (l : List α) :
    (l.filter p).head?.isSome = true ↔ ∃ a ∈ l, p a = true := by
  induction l with
  | nil => simp
  | cons a l ih =>
    by_cases h : p a = true
    · simp [List.filter_cons, h]
    · simp [List.filter_cons, h, ih]

/-! ## Dispatch by `onRequest` -/

theorem formCreation_ok (ctx : ScriptContext) (w : World) :
    (formCreation ctx w).1 = Except.ok () := by
  refine @of_wp _ (formCreation ctx) w (fun r => r.1 = Except.ok ()) ?_
  simp only [formCreation, wp_tryCatch, wp_bind, wp_platformCall, wp_logError,
    wp_createForm, wp_addField, wp_addSubmitButton, wp_writePage]
  simp

theorem recordCreation_ok (ctx : ScriptContext) (w : World) :
    (recordCreation ctx w).1 = Except.ok () := by
  refine @of_wp _ (recordCreation ctx) w (fun r => r.1 = Except.ok ()) ?_
  simp only [recordCreation, emailSearch, duplicateSearch, sendAdminEmail, sendRepEmail,
    wp_tryCatch, wp_bind, wp_pure, wp_raise, wp_ite, wp_platformCall, wp_logError,
    wp_createForm, wp_addField, wp_writePage, wp_searchCreate, wp_run, wp_each,
    wp_lookupFields, wp_valueOf, wp_runOf_some, wp_runOf_none, wp_recordCreate, wp_setValue,
    wp_save, wp_emailSend]
  simp

theorem tryCatch_of_ok (m : M Unit) (h : String → M Unit) (w : World)
    (hm : (m w).1 = Except.ok ()) : tryCatch m h w = m w := by
  unfold tryCatch
  rcases hmw : m w with ⟨r, w1⟩
  rw [hmw] at hm
  simp only at hm
  subst hm
  rfl

theorem bind_unit_of_ok (m : M Unit) (w : World) (hm : (m w).1 = Except.ok ()) :
    (m >>= fun _ => (pure PUnit.unit : M Unit)) w = m w := by
  show M.bind m _ w = _
  unfold M.bind
  rcases hmw : m w with ⟨r, w1⟩
  rw [hmw] at hm
  simp only at hm
  subst hm
  rfl

theorem onRequest_get (ctx : ScriptContext) (w : World) (h : ctx.request.method = "GET") :
    onRequest ctx w = formCreation ctx w := by
  have hP : ¬ ctx.request.method = "POST" := by rw [h]; decide
  have hb : (do
      if ctx.request.method = "GET" then formCreation ctx
      if ctx.request.method = "POST" then recordCreation ctx : M Unit) w
      = formCreation ctx w := by
    simp only [if_pos h, if_neg hP]
    exact bind_unit_of_ok _ w (formCreation_ok ctx w)
  unfold onRequest
  rw [tryCatch_of_ok _ _ w (by rw [hb]; exact formCreation_ok ctx w), hb]

theorem onRequest_post (ctx : ScriptContext) (w : World) (h : ctx.request.method = "POST") :
    onRequest ctx w = recordCreation ctx w := by
  have hG : ¬ ctx.request.method = "GET" := by rw [h]; decide
  have hb : (do
      if ctx.request.method = "GET" then formCreation ctx
      if ctx.request.method = "POST" then recordCreation ctx : M Unit) w
      = recordCreation ctx w := by
    simp only [if_pos h, if_neg hG]
    rfl
  unfold onRequest
  rw [tryCatch_of_ok _ _ w (by rw [hb]; exact recordCreation_ok ctx w), hb]

theorem onRequest_other (ctx : ScriptContext) (w : World) (hG : ¬ ctx.request.method = "GET")
    (hP : ¬ ctx.request.method = "POST") : onRequest ctx w = (Except.ok (), w) := by
  unfold onRequest
  simp only [if_neg hG, if_neg hP]
  rfl

/-- C1 (amended): when the store holds a customer-reference record with the
submitted name and e-mail, and neither the duplicate search (`search.create`,
`run`, `each` on the record type) nor the calls that build and write the page
(`createForm`, `addField`, `writePage`) fail, `recordCreation` leaves the store
unchanged, sends no e-mail and does not call `email.send`, and writes the
duplicate-notice page. -/
theorem recordCreation_duplicate (ctx : ScriptContext) (w : World)
    (hq : ∀ op ∈ [Op.searchCreate RecType.customrecord_jj_customer_reference,
      Op.run RecType.customrecord_jj_customer_reference,
      Op.each RecType.customrecord_jj_customer_reference,
      Op.createForm "Custom Record Creation !", Op.addField "custpage_existing",
      Op.writePage], w.faults op = false)
    (hdup : ∃ r ∈ w.references,
      r.custrecord_jj_cust_ref_name = ctx.request.parameters.custpage_cust_ref_name ∧
      r.custrecord_jj_cust_ref_email = ctx.request.parameters.custpage_cust_ref_email) :
    (recordCreation ctx w).2.references = w.references ∧
    (recordCreation ctx w).2.outbox = w.outbox ∧
    (recordCreation ctx w).2.response = w.response ++
      [⟨"Custom Record Creation !",
        [⟨"custpage_existing", FieldType.INLINEHTML, "Text",
          some "\n            \n            <p> A customer with the same details exists ! </p>"⟩],
        []⟩] ∧
    (recordCreation ctx w).2.calls = w.calls ++
      [Op.searchCreate RecType.CUSTOMER,
       Op.searchCreate RecType.customrecord_jj_customer_reference,
       Op.run RecType.customrecord_jj_customer_reference,
       Op.each RecType.customrecord_jj_customer_reference,
       Op.createForm "Custom Record Creation !", Op.addField "custpage_existing",
       Op.writePage] := by
  have f1 : w.faults (Op.searchCreate RecType.customrecord_jj_customer_reference) = false :=
    hq _ (by simp)
  have f2 : w.faults (Op.run RecType.customrecord_jj_customer_reference) = false :=
    hq _ (by simp)
  have f3 : w.faults (Op.each RecType.customrecord_jj_customer_reference) = false :=
    hq _ (by simp)
  have f4 : w.faults (Op.createForm "Custom Record Creation !") = false := hq _ (by simp)
  have f5 : w.faults (Op.addField "custpage_existing") = false := hq _ (by simp)
  have f6 : w.faults Op.writePage = false := hq _ (by simp)
  refine @of_wp _ (recordCreation ctx) w (fun r =>
    r.2.references = w.references ∧ r.2.outbox = w.outbox ∧
    r.2.response = w.response ++
      [⟨"Custom Record Creation !",
        [⟨"custpage_existing", FieldType.INLINEHTML, "Text",
          some "\n            \n            <p> A customer with the same details exists ! </p>"⟩],
        []⟩] ∧
    r.2.calls = w.calls ++
      [Op.searchCreate RecType.CUSTOMER,
       Op.searchCreate RecType.customrecord_jj_customer_reference,
       Op.run RecType.customrecord_jj_customer_reference,
       Op.each RecType.customrecord_jj_customer_reference,
       Op.createForm "Custom Record Creation !", Op.addField "custpage_existing",
       Op.writePage]) ?_
  simp only [recordCreation, emailSearch, duplicateSearch, sendAdminEmail, sendRepEmail,
    wp_tryCatch, wp_bind, wp_pure, wp_raise, wp_ite, wp_platformCall, wp_logError,
    wp_createForm, wp_addField, wp_writePage, wp_searchCreate, wp_run, wp_each,
    wp_lookupFields, wp_valueOf, wp_runOf_some, wp_runOf_none, wp_recordCreate, wp_setValue,
    wp_save, wp_emailSend, duplicate_each, customer_each, f1, f2, f3, f4, f5, f6]
  simp [Form.setDefaultValue, duplicateHtml]
  refine ⟨fun _ => hdup, fun _ hno => ?_⟩
  obtain ⟨r, hr, h1, h2⟩ := hdup
  exact absurd h2 (hno r hr h1)

/-- C1 (as stated) fails: the store holds Jane Doe's record, but running the
duplicate search throws, `duplicateSearch` catches the error and returns
`undefined`, and `recordCreation` takes the creating branch: a second record
with the same name and e-mail is saved, both e-mails are sent and the
confirmation page is written instead of the duplicate notice. -/
theorem recordCreation_duplicate_search_fails :
    (∃ r ∈ janeStoredRunFails.references,
      r.custrecord_jj_cust_ref_name = janePost.request.parameters.custpage_cust_ref_name ∧
      r.custrecord_jj_cust_ref_email = janePost.request.parameters.custpage_cust_ref_email) ∧
    (recordCreation janePost janeStoredRunFails).2.references =
      [⟨1, "Jane Doe", "jane@x.com", some 7, "Help", "Need info"⟩,
       ⟨2, "Jane Doe", "jane@x.com", some 7, "Help", "Need info"⟩] ∧
    (recordCreation janePost janeStoredRunFails).2.outbox =
      [⟨-5, [Recipient.entity (-5)], "Custom Record Creation",
        "A custom customer record was created"⟩,
       ⟨-5, [Recipient.address "rep@x.com"], "Custom record creation",
        "A custom customer record was created"⟩] ∧
    (recordCreation janePost janeStoredRunFails).2.response =
      [⟨"Custom Record Creation !",
        [⟨"custpage_result", FieldType.INLINEHTML, "Text",
          some (confirmationHtml "Jane Doe" "jane@x.com" "Help" "Need info")⟩],
        []⟩] :=
  ⟨⟨⟨1, "Jane Doe", "jane@x.com", some 7, "Help", "Need info"⟩, by decide, rfl, rfl⟩,
    rfl, rfl, rfl⟩

/-- Jane Doe's submission against a store that already holds her record. -/
theorem recordCreation_duplicate_witness :
    (recordCreation janePost janeStored).2.references = janeStored.references ∧
    (recordCreation janePost janeStored).2.outbox = janeStored.outbox ∧
    (recordCreation janePost janeStored).2.response = janeStored.response ++
      [⟨"Custom Record Creation !",
        [⟨"custpage_existing", FieldType.INLINEHTML, "Text",
          some "\n            \n            <p> A customer with the same details exists ! </p>"⟩],
        []⟩] ∧
    (recordCreation janePost janeStored).2.calls = janeStored.calls ++
      [Op.searchCreate RecType.CUSTOMER,
       Op.searchCreate RecType.customrecord_jj_customer_reference,
       Op.run RecType.customrecord_jj_customer_reference,
       Op.each RecType.customrecord_jj_customer_reference,
       Op.createForm "Custom Record Creation !", Op.addField "custpage_existing",
       Op.writePage] :=
  recordCreation_duplicate janePost janeStored (fun _ _ => rfl)
    ⟨⟨1, "Jane Doe", "jane@x.com", some 7, "Help", "Need info"⟩, by decide, rfl, rfl⟩

theorem find?_internalid (cs : List Customer) (h : (cs.map fun c => c.internalid).Nodup)
    (c : Customer) (hc : c ∈ cs) :
    cs.find? (fun x => x.internalid == c.internalid) = some c := by
  induction cs with
  | nil => simp at hc
  | cons a cs ih =>
    simp only [List.map_cons, List.nodup_cons, List.mem_map, not_exists, not_and] at h
    rcases List.mem_cons.1 hc with rfl | hmem
    · simp
    · have hne : a.internalid ≠ c.internalid := fun e => h.1 c hmem e.symm
      simp [List.find?_cons, hne, ih h.2 hmem]

theorem mem_of_filter_eq_cons {α : Type} {p : α → Bool} {l rest : List α} {a : α}
    (h : l.filter p = a :: rest) : a ∈ l := by
  have : a ∈ l.filter p := by rw [h]; simp
  exact (List.mem_filter.1 this).1

/-- The creating path: when no platform call fails, no customer-reference record
has the submitted name and e-mail, and the first Customer the e-mail search
yields has a sales rep who is an employee, `recordCreation` appends exactly one record,
linked to that customer's id, writes the confirmation page, and sends exactly
two e-mails: to the administrator (entity -5) and to the sales rep's address. -/
theorem recordCreation_creates (ctx : ScriptContext) (w : World) (hf : NoFaults w)
    (hids : (w.customers.map fun c => c.internalid).Nodup)
    (hnodup : ∀ r ∈ w.references,
      ¬ (r.custrecord_jj_cust_ref_name = ctx.request.parameters.custpage_cust_ref_name ∧
         r.custrecord_jj_cust_ref_email = ctx.request.parameters.custpage_cust_ref_email))
    (c : Customer) (rest : List Customer)
    (hc : (w.customers.filter fun c =>
      c.email = ctx.request.parameters.custpage_cust_ref_email) = c :: rest)
    (rep : Nat) (hrep : c.salesrep = some rep)
    (emp : Employee) (hemp : w.employees.find? (fun e => e.internalid == rep) = some emp) :
    (recordCreation ctx w).2.references = w.references ++
      [⟨nextId w.references, ctx.request.parameters.custpage_cust_ref_name,
        ctx.request.parameters.custpage_cust_ref_email, some c.internalid,
        ctx.request.parameters.custpage_cust_ref_subject,
        ctx.request.parameters.custpage_cust_ref_message⟩] ∧
    (recordCreation ctx w).2.outbox = w.outbox ++
      [⟨-5, [Recipient.entity (-5)], "Custom Record Creation",
        "A custom customer record was created"⟩,
       ⟨-5, [Recipient.address emp.email], "Custom record creation",
        "A custom customer record was created"⟩] ∧
    (recordCreation ctx w).2.response = w.response ++
      [⟨"Custom Record Creation !",
        [⟨"custpage_result", FieldType.INLINEHTML, "Text",
          some (confirmationHtml ctx.request.parameters.custpage_cust_ref_name
            ctx.request.parameters.custpage_cust_ref_email
            ctx.request.parameters.custpage_cust_ref_subject
            ctx.request.parameters.custpage_cust_ref_message)⟩],
        []⟩] := by
  have hfind := find?_internalid w.customers hids c (mem_of_filter_eq_cons hc)
  have hv1 : lookupValue w.customers w.employees RecType.CUSTOMER (some c.internalid)
      [FieldId.salesrep] = Except.ok ⟨some [⟨rep⟩], none⟩ := by
    simp [lookupValue, lookupSalesrep, hfind, hrep]
  have hv2 : lookupValue w.customers w.employees RecType.EMPLOYEE (some rep)
      [FieldId.email] = Except.ok ⟨none, some emp.email⟩ := by
    simp [lookupValue, lookupEmail, hemp]
  have hno : (w.references.filter fun r =>
      r.custrecord_jj_cust_ref_name = ctx.request.parameters.custpage_cust_ref_name ∧
      r.custrecord_jj_cust_ref_email = ctx.request.parameters.custpage_cust_ref_email) = [] := by
    simpa [List.filter_eq_nil_iff] using hnodup
  refine @of_wp _ (recordCreation ctx) w (fun r =>
    r.2.references = w.references ++
      [⟨nextId w.references, ctx.request.parameters.custpage_cust_ref_name,
        ctx.request.parameters.custpage_cust_ref_email, some c.internalid,
        ctx.request.parameters.custpage_cust_ref_subject,
        ctx.request.parameters.custpage_cust_ref_message⟩] ∧
    r.2.outbox = w.outbox ++
      [⟨-5, [Recipient.entity (-5)], "Custom Record Creation",
        "A custom customer record was created"⟩,
       ⟨-5, [Recipient.address emp.email], "Custom record creation",
        "A custom customer record was created"⟩] ∧
    r.2.response = w.response ++
      [⟨"Custom Record Creation !",
        [⟨"custpage_result", FieldType.INLINEHTML, "Text",
          some (confirmationHtml ctx.request.parameters.custpage_cust_ref_name
            ctx.request.parameters.custpage_cust_ref_email
            ctx.request.parameters.custpage_cust_ref_subject
            ctx.request.parameters.custpage_cust_ref_message)⟩],
        []⟩]) ?_
  simp only [recordCreation, emailSearch, duplicateSearch, sendAdminEmail, sendRepEmail,
    wp_tryCatch, wp_bind, wp_pure, wp_raise, wp_ite, wp_platformCall, wp_logError,
    wp_createForm, wp_addField, wp_writePage, wp_searchCreate, wp_run, wp_each,
    wp_lookupFields, wp_valueOf, wp_runOf_some, wp_runOf_none, wp_recordCreate, wp_setValue,
    wp_save, wp_emailSend, duplicate_each, customer_each, hf _, hc, hno, List.head?_cons,
    List.head?_nil, Option.map_some', Option.map_none', hv1, hv2]
  simp [Form.setDefaultValue, LookupResult.salesrep0, LookupResult.truthy, nextId_ne_zero, hv2]

/-- Jane Doe's submission against `janeCustomer`: one record linked to customer
7, the confirmation page, and the two e-mails. -/
theorem recordCreation_creates_witness :
    (recordCreation janePost janeCustomer).2.references = janeCustomer.references ++
      [⟨nextId janeCustomer.references, "Jane Doe", "jane@x.com", some 7, "Help",
        "Need info"⟩] ∧
    (recordCreation janePost janeCustomer).2.outbox = janeCustomer.outbox ++
      [⟨-5, [Recipient.entity (-5)], "Custom Record Creation",
        "A custom customer record was created"⟩,
       ⟨-5, [Recipient.address "rep@x.com"], "Custom record creation",
        "A custom customer record was created"⟩] ∧
    (recordCreation janePost janeCustomer).2.response = janeCustomer.response ++
      [⟨"Custom Record Creation !",
        [⟨"custpage_result", FieldType.INLINEHTML, "Text",
          some (confirmationHtml "Jane Doe" "jane@x.com" "Help" "Need info")⟩],
        []⟩] :=
  recordCreation_creates janePost janeCustomer (fun _ => rfl) (by decide) (by decide)
    ⟨7, "jane@x.com", some 3⟩ [] (by decide) 3 rfl ⟨3, "rep@x.com"⟩ (by decide)

/-- C2 (code bug): a Customer with the submitted e-mail exists and no record
matches, yet no record is created and no e-mail is sent: the customer has no
sales rep, and `saleRep.salesrep[0].value` of line 166 throws before
`record.create`, although `sendRepEmail` is documented for "the customer's
sales rep, if any" and line 232 guards the sales-rep e-mail. -/
theorem recordCreation_no_salesrep :
    (∃ c ∈ janeNoRep.customers, c.email = janePost.request.parameters.custpage_cust_ref_email) ∧
    (∀ r ∈ janeNoRep.references,
      ¬ (r.custrecord_jj_cust_ref_name = janePost.request.parameters.custpage_cust_ref_name ∧
         r.custrecord_jj_cust_ref_email = janePost.request.parameters.custpage_cust_ref_email)) ∧
    (recordCreation janePost janeNoRep).2.references = [] ∧
    (recordCreation janePost janeNoRep).2.outbox = [] ∧
    (recordCreation janePost janeNoRep).2.logs =
      [⟨LogLevel.error, "Error caught",
        "Cannot read properties of undefined (reading 'value')"⟩] := by
  refine ⟨⟨⟨7, "jane@x.com", none⟩, by decide, rfl⟩, by decide, rfl, rfl, rfl⟩

/-- C3 (code bug): for Jane Doe's submission with no Customer and no record,
the sales-rep lookup of line 160 is made with an undefined id and throws before
`record.create`: no record is created, no page is written, `email.send` is
never called, and one error is logged. -/
theorem recordCreation_no_customer :
    (recordCreation janePost janeUnknown).2.references = [] ∧
    (recordCreation janePost janeUnknown).2.response = [] ∧
    (recordCreation janePost janeUnknown).2.outbox = [] ∧
    (recordCreation janePost janeUnknown).2.logs =
      [⟨LogLevel.error, "Error caught", "SSS_MISSING_REQD_ARGUMENT"⟩] ∧
    (recordCreation janePost janeUnknown).2.calls =
      [Op.searchCreate RecType.CUSTOMER,
       Op.searchCreate RecType.customrecord_jj_customer_reference,
       Op.run RecType.customrecord_jj_customer_reference,
       Op.each RecType.customrecord_jj_customer_reference,
       Op.run RecType.CUSTOMER, Op.each RecType.CUSTOMER,
       Op.lookupFields RecType.CUSTOMER none] :=
  ⟨rfl, rfl, rfl, rfl, rfl⟩

/-- C4: whatever platform calls fail, `recordCreation` writes at most one page,
and a page it writes is the duplicate notice or the confirmation page, whose
inline HTML is the fixed template text with the submitted name, e-mail, subject
and message inserted unchanged, in this order. -/
theorem recordCreation_confirmation_html (ctx : ScriptContext) (w : World) :
    (recordCreation ctx w).2.response = w.response ∨
    (recordCreation ctx w).2.response = w.response ++
      [⟨"Custom Record Creation !",
        [⟨"custpage_existing", FieldType.INLINEHTML, "Text",
          some "\n            \n            <p> A customer with the same details exists ! </p>"⟩],
        []⟩] ∨
    (recordCreation ctx w).2.response = w.response ++
      [⟨"Custom Record Creation !",
        [⟨"custpage_result", FieldType.INLINEHTML, "Text",
          some ("\n            <h1> Custom Record Created </h1>\n            <p> Customer Name : "
            ++ ctx.request.parameters.custpage_cust_ref_name
            ++ " </p>\n            <p> Customer Email : "
            ++ ctx.request.parameters.custpage_cust_ref_email
            ++ " </p>\n            <p> Subject : "
            ++ ctx.request.parameters.custpage_cust_ref_subject
            ++ " </p>\n            <p> Message : "
            ++ ctx.request.parameters.custpage_cust_ref_message ++ " </p>\n    ")⟩],
        []⟩] := by
  refine @of_wp _ (recordCreation ctx) w (fun r =>
    r.2.response = w.response ∨
    r.2.response = w.response ++
      [⟨"Custom Record Creation !",
        [⟨"custpage_existing", FieldType.INLINEHTML, "Text",
          some "\n            \n            <p> A customer with the same details exists ! </p>"⟩],
        []⟩] ∨
    r.2.response = w.response ++
      [⟨"Custom Record Creation !",
        [⟨"custpage_result", FieldType.INLINEHTML, "Text",
          some ("\n            <h1> Custom Record Created </h1>\n            <p> Customer Name : "
            ++ ctx.request.parameters.custpage_cust_ref_name
            ++ " </p>\n            <p> Customer Email : "
            ++ ctx.request.parameters.custpage_cust_ref_email
            ++ " </p>\n            <p> Subject : "
            ++ ctx.request.parameters.custpage_cust_ref_subject
            ++ " </p>\n            <p> Message : "
            ++ ctx.request.parameters.custpage_cust_ref_message ++ " </p>\n    ")⟩],
        []⟩]) ?_
  simp only [recordCreation, emailSearch, duplicateSearch, sendAdminEmail, sendRepEmail,
    wp_tryCatch, wp_bind, wp_pure, wp_raise, wp_ite, wp_platformCall, wp_logError,
    wp_createForm, wp_addField, wp_writePage, wp_searchCreate, wp_run, wp_each,
    wp_lookupFields, wp_valueOf, wp_runOf_some, wp_runOf_none, wp_recordCreate, wp_setValue,
    wp_save, wp_emailSend]
  simp [Form.setDefaultValue, duplicateHtml, confirmationHtml]

theorem formCreation_logged (ctx : ScriptContext) (w : World) :
    ∃ entries : List LogEntry,
      (formCreation ctx w).2.logs = w.logs ++ entries ∧
      (∀ l ∈ entries, l.level = LogLevel.error) ∧
      (formCreation ctx w).2.raised = w.raised ++ entries.map fun l => l.details := by
  refine @of_wp _ (formCreation ctx) w (fun r =>
    ∃ entries : List LogEntry,
      r.2.logs = w.logs ++ entries ∧
      (∀ l ∈ entries, l.level = LogLevel.error) ∧
      r.2.raised = w.raised ++ entries.map fun l => l.details) ?_
  simp only [formCreation, wp_tryCatch, wp_bind, wp_platformCall, wp_logError,
    wp_createForm, wp_addField, wp_addSubmitButton, wp_writePage]
  simp

theorem recordCreation_logged (ctx : ScriptContext) (w : World) :
    ∃ entries : List LogEntry,
      (recordCreation ctx w).2.logs = w.logs ++ entries ∧
      (∀ l ∈ entries, l.level = LogLevel.error) ∧
      (recordCreation ctx w).2.raised = w.raised ++ entries.map fun l => l.details := by
  refine @of_wp _ (recordCreation ctx) w (fun r =>
    ∃ entries : List LogEntry,
      r.2.logs = w.logs ++ entries ∧
      (∀ l ∈ entries, l.level = LogLevel.error) ∧
      r.2.raised = w.raised ++ entries.map fun l => l.details) ?_
  simp only [recordCreation, emailSearch, duplicateSearch, sendAdminEmail, sendRepEmail,
    wp_tryCatch, wp_bind, wp_pure, wp_raise, wp_ite, wp_platformCall, wp_logError,
    wp_createForm, wp_addField, wp_writePage, wp_searchCreate, wp_run, wp_each,
    wp_lookupFields, wp_valueOf, wp_runOf_some, wp_runOf_none, wp_recordCreate, wp_setValue,
    wp_save, wp_emailSend]
  simp

theorem recordCreation_store (ctx : ScriptContext) (w : World) :
    (recordCreation ctx w).2.customers = w.customers ∧
    (recordCreation ctx w).2.employees = w.employees ∧
    ((recordCreation ctx w).2.references = w.references ∨
      ∃ id cid, (recordCreation ctx w).2.references = w.references ++
        [⟨id, ctx.request.parameters.custpage_cust_ref_name,
          ctx.request.parameters.custpage_cust_ref_email, cid,
          ctx.request.parameters.custpage_cust_ref_subject,
          ctx.request.parameters.custpage_cust_ref_message⟩]) := by
  refine @of_wp _ (recordCreation ctx) w (fun r =>
    r.2.customers = w.customers ∧
    r.2.employees = w.employees ∧
    (r.2.references = w.references ∨
      ∃ id cid, r.2.references = w.references ++
        [⟨id, ctx.request.parameters.custpage_cust_ref_name,
          ctx.request.parameters.custpage_cust_ref_email, cid,
          ctx.request.parameters.custpage_cust_ref_subject,
          ctx.request.parameters.custpage_cust_ref_message⟩])) ?_
  simp only [recordCreation, emailSearch, duplicateSearch, sendAdminEmail, sendRepEmail,
    wp_tryCatch, wp_bind, wp_pure, wp_raise, wp_ite, wp_platformCall, wp_logError,
    wp_createForm, wp_addField, wp_writePage, wp_searchCreate, wp_run, wp_each,
    wp_lookupFields, wp_valueOf, wp_runOf_some, wp_runOf_none, wp_recordCreate, wp_setValue,
    wp_save, wp_emailSend]
  simp

theorem formCreation_frame (ctx : ScriptContext) (w : World) :
    (formCreation ctx w).2.customers = w.customers ∧
    (formCreation ctx w).2.employees = w.employees ∧
    (formCreation ctx w).2.references = w.references ∧
    (formCreation ctx w).2.outbox = w.outbox ∧
    ∃ ops : List Op, (formCreation ctx w).2.calls = w.calls ++ ops ∧
      ∀ op ∈ ops, op.isWidget = true := by
  refine @of_wp _ (formCreation ctx) w (fun r =>
    r.2.customers = w.customers ∧
    r.2.employees = w.employees ∧
    r.2.references = w.references ∧
    r.2.outbox = w.outbox ∧
    ∃ ops : List Op, r.2.calls = w.calls ++ ops ∧ ∀ op ∈ ops, op.isWidget = true) ?_
  simp only [formCreation, wp_tryCatch, wp_bind, wp_platformCall, wp_logError,
    wp_createForm, wp_addField, wp_addSubmitButton, wp_writePage]
  simp [Op.isWidget]

/-- C5: for every request and every platform state, whichever platform calls
fail, `onRequest` returns normally, and each error thrown while it runs is
written to the log at error severity: the new log entries are all of error
severity and their details are the messages thrown, in order. -/
theorem onRequest_catches (ctx : ScriptContext) (w : World) :
    (onRequest ctx w).1 = Except.ok () ∧
    ∃ entries : List LogEntry,
      (onRequest ctx w).2.logs = w.logs ++ entries ∧
      (∀ l ∈ entries, l.level = LogLevel.error) ∧
      (onRequest ctx w).2.raised = w.raised ++ entries.map fun l => l.details := by
  by_cases hG : ctx.request.method = "GET"
  · rw [onRequest_get ctx w hG]
    exact ⟨formCreation_ok ctx w, formCreation_logged ctx w⟩
  · by_cases hP : ctx.request.method = "POST"
    · rw [onRequest_post ctx w hP]
      exact ⟨recordCreation_ok ctx w, recordCreation_logged ctx w⟩
    · rw [onRequest_other ctx w hG hP]
      exact ⟨rfl, [], by simp⟩

/-- C7: for every request, whichever platform calls fail, `onRequest` leaves
the Customer and Employee directories unchanged, and the record store afterwards
is the store before, or the store before followed by one new record whose name,
e-mail, subject and message are the submitted values. -/
theorem onRequest_store (ctx : ScriptContext) (w : World) :
    (onRequest ctx w).2.customers = w.customers ∧
    (onRequest ctx w).2.employees = w.employees ∧
    ((onRequest ctx w).2.references = w.references ∨
      ∃ id cid, (onRequest ctx w).2.references = w.references ++
        [⟨id, ctx.request.parameters.custpage_cust_ref_name,
          ctx.request.parameters.custpage_cust_ref_email, cid,
          ctx.request.parameters.custpage_cust_ref_subject,
          ctx.request.parameters.custpage_cust_ref_message⟩]) := by
  by_cases hG : ctx.request.method = "GET"
  · rw [onRequest_get ctx w hG]
    have h := formCreation_frame ctx w
    exact ⟨h.1, h.2.1, Or.inl h.2.2.1⟩
  · by_cases hP : ctx.request.method = "POST"
    · rw [onRequest_post ctx w hP]
      exact recordCreation_store ctx w
    · rw [onRequest_other ctx w hG hP]
      exact ⟨rfl, rfl, Or.inl rfl⟩

/-- C6: on a GET request, whichever platform calls fail, `onRequest` changes
neither the record store nor the directories, sends no e-mail, and makes only
form and response calls (no search, lookup, record or e-mail call); when no
call fails it writes the intake form, with the four fields and a submit
button. -/
theorem onRequest_get_form (ctx : ScriptContext) (w : World)
    (hG : ctx.request.method = "GET") :
    (onRequest ctx w).2.customers = w.customers ∧
    (onRequest ctx w).2.employees = w.employees ∧
    (onRequest ctx w).2.references = w.references ∧
    (onRequest ctx w).2.outbox = w.outbox ∧
    (∃ ops : List Op, (onRequest ctx w).2.calls = w.calls ++ ops ∧
      ∀ op ∈ ops, op.isWidget = true) ∧
    (NoFaults w → (onRequest ctx w).2.response = w.response ++
      [⟨"Customer Form",
        [⟨"custpage_cust_ref_name", FieldType.TEXT, "Customer Name", none⟩,
         ⟨"custpage_cust_ref_email", FieldType.EMAIL, "Customer Email", none⟩,
         ⟨"custpage_cust_ref_subject", FieldType.TEXT, "Subject", none⟩,
         ⟨"custpage_cust_ref_message", FieldType.TEXT, "Message", none⟩],
        ["Submit"]⟩]) := by
  rw [onRequest_get ctx w hG]
  have h := formCreation_frame ctx w
  refine ⟨h.1, h.2.1, h.2.2.1, h.2.2.2.1, h.2.2.2.2, ?_⟩
  intro hf
  refine @of_wp _ (formCreation ctx) w (fun r => r.2.response = w.response ++
      [⟨"Customer Form",
        [⟨"custpage_cust_ref_name", FieldType.TEXT, "Customer Name", none⟩,
         ⟨"custpage_cust_ref_email", FieldType.EMAIL, "Customer Email", none⟩,
         ⟨"custpage_cust_ref_subject", FieldType.TEXT, "Subject", none⟩,
         ⟨"custpage_cust_ref_message", FieldType.TEXT, "Message", none⟩],
        ["Submit"]⟩]) ?_
  simp only [formCreation, wp_tryCatch, wp_bind, wp_platformCall, wp_logError,
    wp_createForm, wp_addField, wp_addSubmitButton, wp_writePage, hf _]
  simp

/-- The GET request on `janeStored`, where no call fails. -/
theorem onRequest_get_form_witness :
    (onRequest getRequest janeStored).2.references = janeStored.references ∧
    (onRequest getRequest janeStored).2.outbox = janeStored.outbox ∧
    (onRequest getRequest janeStored).2.response = janeStored.response ++
      [⟨"Customer Form",
        [⟨"custpage_cust_ref_name", FieldType.TEXT, "Customer Name", none⟩,
         ⟨"custpage_cust_ref_email", FieldType.EMAIL, "Customer Email", none⟩,
         ⟨"custpage_cust_ref_subject", FieldType.TEXT, "Subject", none⟩,
         ⟨"custpage_cust_ref_message", FieldType.TEXT, "Message", none⟩],
        ["Submit"]⟩] :=
  have h := onRequest_get_form getRequest janeStored rfl
  ⟨h.2.2.1, h.2.2.2.1, h.2.2.2.2.2 (fun _ => rfl)⟩

/-- C8: when no platform call fails and no record duplicates the submission,
the customer id `recordCreation` uses is the id of the first Customer the
e-mail search yields: the sales-rep lookup is made with that id and with no
other, and a record that is created is linked to it. -/
theorem recordCreation_first_customer (ctx : ScriptContext) (w : World) (hf : NoFaults w)
    (hnodup : ∀ r ∈ w.references,
      ¬ (r.custrecord_jj_cust_ref_name = ctx.request.parameters.custpage_cust_ref_name ∧
         r.custrecord_jj_cust_ref_email = ctx.request.parameters.custpage_cust_ref_email))
    (c : Customer) (rest : List Customer)
    (hc : (w.customers.filter fun c =>
      c.email = ctx.request.parameters.custpage_cust_ref_email) = c :: rest) :
    Op.lookupFields RecType.CUSTOMER (some c.internalid) ∈ (recordCreation ctx w).2.calls ∧
    (∀ id, Op.lookupFields RecType.CUSTOMER id ∈ (recordCreation ctx w).2.calls →
      Op.lookupFields RecType.CUSTOMER id ∈ w.calls ∨ id = some c.internalid) ∧
    ((recordCreation ctx w).2.references = w.references ∨
      (recordCreation ctx w).2.references = w.references ++
        [⟨nextId w.references, ctx.request.parameters.custpage_cust_ref_name,
          ctx.request.parameters.custpage_cust_ref_email, some c.internalid,
          ctx.request.parameters.custpage_cust_ref_subject,
          ctx.request.parameters.custpage_cust_ref_message⟩]) := by
  have hno : (w.references.filter fun r =>
      r.custrecord_jj_cust_ref_name = ctx.request.parameters.custpage_cust_ref_name ∧
      r.custrecord_jj_cust_ref_email = ctx.request.parameters.custpage_cust_ref_email) = [] := by
    simpa [List.filter_eq_nil_iff] using hnodup
  refine @of_wp _ (recordCreation ctx) w (fun r =>
    Op.lookupFields RecType.CUSTOMER (some c.internalid) ∈ r.2.calls ∧
    (∀ id, Op.lookupFields RecType.CUSTOMER id ∈ r.2.calls →
      Op.lookupFields RecType.CUSTOMER id ∈ w.calls ∨ id = some c.internalid) ∧
    (r.2.references = w.references ∨
      r.2.references = w.references ++
        [⟨nextId w.references, ctx.request.parameters.custpage_cust_ref_name,
          ctx.request.parameters.custpage_cust_ref_email, some c.internalid,
          ctx.request.parameters.custpage_cust_ref_subject,
          ctx.request.parameters.custpage_cust_ref_message⟩])) ?_
  simp only [recordCreation, emailSearch, duplicateSearch, sendAdminEmail, sendRepEmail,
    wp_tryCatch, wp_bind, wp_pure, wp_raise, wp_ite, wp_platformCall, wp_logError,
    wp_createForm, wp_addField, wp_writePage, wp_searchCreate, wp_run, wp_each,
    wp_lookupFields, wp_valueOf, wp_runOf_some, wp_runOf_none, wp_recordCreate, wp_setValue,
    wp_save, wp_emailSend, duplicate_each, customer_each, hf _, hc, hno, List.head?_cons,
    List.head?_nil, Option.map_some', Option.map_none']
  simp

/-- Jane Doe's submission against `janeTwice`: customer 7, yielded first, is
looked up. -/
theorem recordCreation_first_customer_witness :
    Op.lookupFields RecType.CUSTOMER (some 7) ∈ (recordCreation janePost janeTwice).2.calls :=
  (recordCreation_first_customer janePost janeTwice (fun _ => rfl) (by decide)
    ⟨7, "jane@x.com", some 3⟩ [⟨8, "jane@x.com", some 4⟩] (by decide)).1


/-- C9 (amended): when no platform call fails, `duplicateSearch` returns the
internal id of the first customer-reference record, in the order the search
yields them, whose name and e-mail both equal the arguments, and `undefined`
when there is none; so it returns an id exactly when some record matches. -/
theorem duplicateSearch_first_match (name email : String) (w : World) (hf : NoFaults w) :
    (duplicateSearch name email w).1 =
      Except.ok ((w.references.filter fun r => r.custrecord_jj_cust_ref_name = name ∧
        r.custrecord_jj_cust_ref_email = email).head?.map fun r => r.internalid) ∧
    ((∃ id, (duplicateSearch name email w).1 = Except.ok (some id)) ↔
      ∃ r ∈ w.references, r.custrecord_jj_cust_ref_name = name ∧
        r.custrecord_jj_cust_ref_email = email) := by
  have h1 : (duplicateSearch name email w).1 =
      Except.ok ((w.references.filter fun r => r.custrecord_jj_cust_ref_name = name ∧
        r.custrecord_jj_cust_ref_email = email).head?.map fun r => r.internalid) := by
    refine @of_wp _ (duplicateSearch name email) w (fun r => r.1 =
      Except.ok ((w.references.filter fun r => r.custrecord_jj_cust_ref_name = name ∧
        r.custrecord_jj_cust_ref_email = email).head?.map fun r => r.internalid)) ?_
    simp only [duplicateSearch, wp_tryCatch, wp_bind, wp_pure, wp_platformCall, wp_logError,
      wp_searchCreate, wp_run, wp_each, duplicate_each]
    simp [hf _]
  refine ⟨h1, ?_⟩
  rw [h1]
  have h2 := head?_filter_isSome (fun r : CustomerReference =>
    decide (r.custrecord_jj_cust_ref_name = name ∧ r.custrecord_jj_cust_ref_email = email))
    w.references
  simp only [decide_eq_true_eq] at h2
  rw [← h2]
  cases (w.references.filter fun r => decide (r.custrecord_jj_cust_ref_name = name ∧
    r.custrecord_jj_cust_ref_email = email)).head? <;> simp

/-- C9 (as stated) fails: with two matching records, of ids 1 and 2 in the
order yielded, `duplicateSearch` returns 1, not the id 2 of the last match. -/
theorem duplicateSearch_not_last :
    (twoMatches.references.filter fun r => r.custrecord_jj_cust_ref_name = "A" ∧
        r.custrecord_jj_cust_ref_email = "a@x.com").getLast?.map (fun r => r.internalid)
      = some 2 ∧
    (duplicateSearch "A" "a@x.com" twoMatches).1 = Except.ok (some 1) ∧
    (duplicateSearch "A" "a@x.com" twoMatches).1 ≠ Except.ok (some 2) := by
  have h1 : (duplicateSearch "A" "a@x.com" twoMatches).1 = Except.ok (some 1) := rfl
  refine ⟨by decide, h1, ?_⟩
  rw [h1]
  simp

/-- Instance of `duplicateSearch_first_match` at `twoMatches`. -/
theorem duplicateSearch_first_match_witness :
    NoFaults twoMatches ∧
    (duplicateSearch "A" "a@x.com" twoMatches).1 =
      Except.ok ((twoMatches.references.filter fun r => r.custrecord_jj_cust_ref_name = "A" ∧
        r.custrecord_jj_cust_ref_email = "a@x.com").head?.map fun r => r.internalid) :=
  ⟨fun _ => rfl, (duplicateSearch_first_match "A" "a@x.com" twoMatches (fun _ => rfl)).1⟩

theorem recordCreation_faults (ctx : ScriptContext) (w : World) :
    (recordCreation ctx w).2.faults = w.faults := by
  refine @of_wp _ (recordCreation ctx) w (fun r => r.2.faults = w.faults) ?_
  simp only [recordCreation, emailSearch, duplicateSearch, sendAdminEmail, sendRepEmail,
    wp_tryCatch, wp_bind, wp_pure, wp_raise, wp_ite, wp_platformCall, wp_logError,
    wp_createForm, wp_addField, wp_writePage, wp_searchCreate, wp_run, wp_each,
    wp_lookupFields, wp_valueOf, wp_runOf_some, wp_runOf_none, wp_recordCreate, wp_setValue,
    wp_save, wp_emailSend]
  simp

theorem recordCreation_of_duplicate (ctx : ScriptContext) (w : World) (hf : NoFaults w)
    (hdup : ∃ r ∈ w.references,
      r.custrecord_jj_cust_ref_name = ctx.request.parameters.custpage_cust_ref_name ∧
      r.custrecord_jj_cust_ref_email = ctx.request.parameters.custpage_cust_ref_email) :
    (recordCreation ctx w).2.references = w.references ∧
    (recordCreation ctx w).2.outbox = w.outbox := by
  refine @of_wp _ (recordCreation ctx) w (fun r =>
    r.2.references = w.references ∧ r.2.outbox = w.outbox) ?_
  simp only [recordCreation, emailSearch, duplicateSearch, sendAdminEmail, sendRepEmail,
    wp_tryCatch, wp_bind, wp_pure, wp_raise, wp_ite, wp_platformCall, wp_logError,
    wp_createForm, wp_addField, wp_writePage, wp_searchCreate, wp_run, wp_each,
    wp_lookupFields, wp_valueOf, wp_runOf_some, wp_runOf_none, wp_recordCreate, wp_setValue,
    wp_save, wp_emailSend, duplicate_each, customer_each, hf _]
  simp
  intro hno
  obtain ⟨r, hr, h1, h2⟩ := hdup
  exact absurd h2 (hno r hr h1)

theorem uniquePairs_append (rs : List CustomerReference) (r : CustomerReference)
    (hu : UniquePairs rs)
    (hno : ∀ x ∈ rs, ¬ (x.custrecord_jj_cust_ref_name = r.custrecord_jj_cust_ref_name ∧
      x.custrecord_jj_cust_ref_email = r.custrecord_jj_cust_ref_email)) :
    UniquePairs (rs ++ [r]) := by
  unfold UniquePairs at *
  rw [List.map_append, List.nodup_append]
  refine ⟨hu, by simp, ?_⟩
  intro p hp hq
  simp only [List.map_cons, List.map_nil, List.mem_singleton] at hq
  obtain ⟨x, hx, hxp⟩ := List.mem_map.1 hp
  rw [hq] at hxp
  exact hno x hx ⟨congrArg Prod.fst hxp, congrArg Prod.snd hxp⟩

/-- C10: when no platform call fails, handling the same POST twice in a row
creates at most one record: the store after the second handling is the initial
store or the initial store and one record; if the first handling changed the
store, the second changes neither the store nor the outbox; and a store in
which no two records share name and e-mail stays so. -/
theorem onRequest_twice (ctx : ScriptContext) (w : World)
    (hP : ctx.request.method = "POST") (hf : NoFaults w) :
    ((onRequest ctx (onRequest ctx w).2).2.references = w.references ∨
      ∃ r, (onRequest ctx (onRequest ctx w).2).2.references = w.references ++ [r]) ∧
    ((onRequest ctx w).2.references ≠ w.references →
      (onRequest ctx (onRequest ctx w).2).2.references = (onRequest ctx w).2.references ∧
      (onRequest ctx (onRequest ctx w).2).2.outbox = (onRequest ctx w).2.outbox) ∧
    (UniquePairs w.references →
      UniquePairs (onRequest ctx (onRequest ctx w).2).2.references) := by
  rw [onRequest_post ctx _ hP, onRequest_post ctx w hP]
  have hf1 : NoFaults (recordCreation ctx w).2 := by
    intro op
    rw [recordCreation_faults]
    exact hf op
  have hs1 := (recordCreation_store ctx w).2.2
  have hs2 := (recordCreation_store ctx (recordCreation ctx w).2).2.2
  by_cases hd : ∃ r ∈ w.references,
      r.custrecord_jj_cust_ref_name = ctx.request.parameters.custpage_cust_ref_name ∧
      r.custrecord_jj_cust_ref_email = ctx.request.parameters.custpage_cust_ref_email
  · have h1 := recordCreation_of_duplicate ctx w hf hd
    have h2 := recordCreation_of_duplicate ctx (recordCreation ctx w).2 hf1
      (by rw [h1.1]; exact hd)
    refine ⟨Or.inl (by rw [h2.1, h1.1]), fun _ => h2, fun hu => ?_⟩
    rw [h2.1, h1.1]
    exact hu
  · have hno : ∀ x ∈ w.references,
        ¬ (x.custrecord_jj_cust_ref_name = ctx.request.parameters.custpage_cust_ref_name ∧
          x.custrecord_jj_cust_ref_email = ctx.request.parameters.custpage_cust_ref_email) :=
      fun x hx hm => hd ⟨x, hx, hm⟩
    rcases hs1 with h1 | ⟨id, cid, h1⟩
    · rcases hs2 with h2 | ⟨id2, cid2, h2⟩
      · refine ⟨Or.inl (by rw [h2, h1]), fun hne => absurd h1 hne, fun hu => ?_⟩
        rw [h2, h1]
        exact hu
      · rw [h1] at h2
        refine ⟨Or.inr ⟨_, h2⟩, fun hne => absurd h1 hne, fun hu => ?_⟩
        rw [h2]
        exact uniquePairs_append _ _ hu hno
    · have h2 := recordCreation_of_duplicate ctx (recordCreation ctx w).2 hf1
        (by
          rw [h1]
          exact ⟨⟨id, ctx.request.parameters.custpage_cust_ref_name,
            ctx.request.parameters.custpage_cust_ref_email, cid,
            ctx.request.parameters.custpage_cust_ref_subject,
            ctx.request.parameters.custpage_cust_ref_message⟩, by simp, rfl, rfl⟩)
      refine ⟨Or.inr ⟨_, by rw [h2.1, h1]⟩, fun _ => h2, fun hu => ?_⟩
      rw [h2.1, h1]
      exact uniquePairs_append _ _ hu hno

/-- Jane Doe's submission handled twice from `janeCustomer`: the second
handling adds nothing to the one record the first created. -/
theorem onRequest_twice_witness :
    (onRequest janePost janeCustomer).2.references ≠ janeCustomer.references ∧
    (onRequest janePost (onRequest janePost janeCustomer).2).2.references =
      (onRequest janePost janeCustomer).2.references ∧
    (onRequest janePost (onRequest janePost janeCustomer).2).2.outbox =
      (onRequest janePost janeCustomer).2.outbox :=
  have hne : (onRequest janePost janeCustomer).2.references ≠ janeCustomer.references := by
    decide
  ⟨hne, (onRequest_twice janePost janeCustomer rfl (fun _ => rfl)).2.1 hne⟩

end OTP8900
